import Mathlib

/-!
Shallow embedding of the check8 library: three 8-bit checksum accumulators
(arithmetic sum, XOR, table-driven CRC) behind one shared contract.

Bytes are modelled as `Nat` with wrapping arithmetic made explicit via `% 256`;
states are structures holding the accumulator (and, for CRC, the lookup table);
mutating methods return the updated state together with the returned value,
mirroring the Rust methods that mutate `self` and return a `u8`.
-/

/-- The shared contract (trait `Check8` in src/lib.rs): the two primitive
operations the derived bulk operations need, polymorphic over the variant's
state type. -/
structure Check8Ops (σ : Type) where
  get_accum : σ → Nat
  add : σ → Nat → σ × Nat

/-- Trait-default `calculate_from_byte_array` (src/lib.rs lines 92-97):
fold `add` over the bytes left to right, then return `get_accum()`. -/
def Check8.calculate_from_byte_array {σ : Type} (ops : Check8Ops σ)
    (s : σ) (array : List Nat) : σ × Nat :=
  let s2 := array.foldl (fun st val => (ops.add st val).1) s
  (s2, ops.get_accum s2)

/-- The UTF-8 byte sequence of a string, as `Nat` values: each character
contributes the bytes of its UTF-8 encoding in order.  This models Rust's
`str::as_bytes`, which views the string's UTF-8 representation. -/
def strBytes (string : String) : List Nat :=
  string.data.flatMap (fun c => (String.utf8EncodeChar c).map (fun b => b.toNat))

/-- Trait-default `calculate_from_string` (src/lib.rs lines 99-101):
delegate to `calculate_from_byte_array` on the string's bytes. -/
def Check8.calculate_from_string {σ : Type} (ops : Check8Ops σ)
    (s : σ) (string : String) : σ × Nat :=
  Check8.calculate_from_byte_array ops s (strBytes string)

/-- State of the arithmetic-sum variant (src/check8sum.rs). -/
structure Check8Sum where
  accum : Nat

/-- Model of `Check8Sum::new(initial)`: accumulator starts at the caller-supplied seed. -/
def Check8Sum.new (initial : Nat) : Check8Sum :=
  { accum := initial }

/-- Model of `Check8Sum::get_accum`. -/
def Check8Sum.get_accum (s : Check8Sum) : Nat := s.accum

/-- Model of `Check8Sum::init(val)`: set the accumulator to `val` and return it. -/
def Check8Sum.init (s : Check8Sum) (val : Nat) : Check8Sum × Nat :=
  ({ s with accum := val }, val)

/-- Model of `Check8Sum::add(val)`: wrapping 8-bit addition (`u8::wrapping_add`). -/
def Check8Sum.add (s : Check8Sum) (val : Nat) : Check8Sum × Nat :=
  let s2 := { s with accum := (s.accum + val) % 256 }
  (s2, s2.accum)

/-- The Sum variant's implementation of the contract. -/
def Check8Sum.ops : Check8Ops Check8Sum :=
  { get_accum := Check8Sum.get_accum, add := Check8Sum.add }

/-- State of the XOR variant (src/check8xor.rs). -/
structure Check8Xor where
  accum : Nat

/-- Model of `Check8Xor::new()`: accumulator starts at 0 (the source impl takes no
seed argument). -/
def Check8Xor.new : Check8Xor :=
  { accum := 0 }

/-- Model of `Check8Xor::get_accum`. -/
def Check8Xor.get_accum (s : Check8Xor) : Nat := s.accum

/-- Model of `Check8Xor::init(val)`. -/
def Check8Xor.init (s : Check8Xor) (val : Nat) : Check8Xor × Nat :=
  ({ s with accum := val }, val)

/-- Model of `Check8Xor::add(val)`: bitwise XOR accumulation. -/
def Check8Xor.add (s : Check8Xor) (val : Nat) : Check8Xor × Nat :=
  let s2 := { s with accum := s.accum ^^^ val }
  (s2, s2.accum)

/-- The Xor variant's implementation of the contract. -/
def Check8Xor.ops : Check8Ops Check8Xor :=
  { get_accum := Check8Xor.get_accum, add := Check8Xor.add }

/-- Model of `Check8Xor`'s own overriding `calculate_from_byte_array`
(src/check8xor.rs lines 58-63): fold `add`, then return `self.accum`
directly rather than through `get_accum()`. -/
def Check8Xor.calculate_from_byte_array (s : Check8Xor) (array : List Nat) :
    Check8Xor × Nat :=
  let s2 := array.foldl (fun st val => (Check8Xor.add st val).1) s
  (s2, s2.accum)

/-- Model of `Check8Xor`'s own overriding `calculate_from_string`
(src/check8xor.rs lines 65-67). -/
def Check8Xor.calculate_from_string (s : Check8Xor) (string : String) :
    Check8Xor × Nat :=
  Check8Xor.calculate_from_byte_array s (strBytes string)

/-- One round of the CRC table-generation inner loop
(src/check8crc.rs lines 66-72): if the register's high bit is set,
shift left one (wrapping in 8 bits) and XOR with the polynomial,
otherwise just shift left one (wrapping). -/
def crcStep (poly : Nat) (crc : Nat) : Nat :=
  if crc &&& 0x80 ≠ 0 then ((crc <<< 1) % 256) ^^^ poly
  else (crc <<< 1) % 256

/-- Model of `Check8Crc::generate_table(poly)` (src/check8crc.rs lines 62-76):
for each byte value `i` in `0..256`, run the register `i` through 8 rounds
of `crcStep` and store the result at index `i`. -/
def Check8Crc.generate_table (poly : Nat) : List Nat :=
  (List.range 256).map (fun i => (crcStep poly)^[8] i)

/-- State of the CRC variant (src/check8crc.rs): the accumulator together
with the 256-entry lookup table built at construction. -/
structure Check8Crc where
  accum : Nat
  table : List Nat

/-- Model of `Check8Crc::new(poly)`: accumulator 0, table generated from `poly`. -/
def Check8Crc.new (poly : Nat) : Check8Crc :=
  { accum := 0, table := Check8Crc.generate_table poly }

/-- Model of `Check8Crc::get_accum`. -/
def Check8Crc.get_accum (s : Check8Crc) : Nat := s.accum

/-- Model of `Check8Crc::init(val)`. -/
def Check8Crc.init (s : Check8Crc) (val : Nat) : Check8Crc × Nat :=
  ({ s with accum := val }, val)

/-- Model of `Check8Crc::add(val)` (src/check8crc.rs lines 96-99):
`accum = table[accum ^ val]`, returning the new accumulator.  The Rust
index expression is modelled by `List.getD`; in-bounds indexing is proved
separately. -/
def Check8Crc.add (s : Check8Crc) (val : Nat) : Check8Crc × Nat :=
  let s2 := { s with accum := s.table.getD (s.accum ^^^ val) 0 }
  (s2, s2.accum)

/-- The Crc variant's implementation of the contract. -/
def Check8Crc.ops : Check8Ops Check8Crc :=
  { get_accum := Check8Crc.get_accum, add := Check8Crc.add }

/-- The CRC register after `n` explicit iterations of the conditional
shift-and-XOR step, starting from register value `crc`.  This is the
spec's description of the per-entry computation, written as plain
recursion, to be compared with the table built by `generate_table`. -/
def crcRegIter (poly : Nat) : Nat → Nat → Nat
  | 0, crc => crc
  | n + 1, crc => crcRegIter poly n (crcStep poly crc)

/-! ## Helper lemmas -/

/-- Iterating `crcStep` with `Function.iterate` agrees with the explicit
recursion `crcRegIter`. -/
theorem crcStep_iterate_eq (poly : Nat) :
    ∀ n crc, (crcStep poly)^[n] crc = crcRegIter poly n crc := by
  intro n
  induction n with
  | zero => intro crc; rfl
  | succ n ih =>
    intro crc
    rw [Function.iterate_succ_apply, ih, crcRegIter]

/-- XOR of two 8-bit values is an 8-bit value. -/
theorem xor_lt_256 {a b : Nat} (ha : a < 256) (hb : b < 256) : a ^^^ b < 256 := by
  have h256 : (256 : Nat) = 2 ^ 8 := by norm_num
  rw [h256] at ha hb ⊢
  exact Nat.xor_lt_two_pow ha hb

/-- One CRC round always produces an 8-bit value when the polynomial is
8-bit, regardless of the input register. -/
theorem crcStep_lt {poly : Nat} (hp : poly < 256) (crc : Nat) :
    crcStep poly crc < 256 := by
  unfold crcStep
  split
  · exact xor_lt_256 (Nat.mod_lt _ (by norm_num)) hp
  · exact Nat.mod_lt _ (by norm_num)

/-- Iterated CRC rounds keep the register 8-bit. -/
theorem crcStep_iterate_lt {poly : Nat} (hp : poly < 256) :
    ∀ n crc, crc < 256 → (crcStep poly)^[n] crc < 256 := by
  intro n
  induction n with
  | zero => intro crc h; simpa using h
  | succ n ih =>
    intro crc _
    rw [Function.iterate_succ_apply]
    exact ih _ (crcStep_lt hp crc)

/-- Every entry of the generated table is an 8-bit value when the
polynomial is 8-bit. -/
theorem generate_table_mem_lt {poly : Nat} (hp : poly < 256) :
    ∀ e ∈ Check8Crc.generate_table poly, e < 256 := by
  intro e he
  simp only [Check8Crc.generate_table, List.mem_map, List.mem_range] at he
  obtain ⟨i, hi, rfl⟩ := he
  exact crcStep_iterate_lt hp 8 i hi

/-! ## Claim theorems -/

/-- Claim C1: for every 8-bit generator polynomial and every byte value
`b` below 256, the lookup-table entry at index `b` built by
`generate_table` equals the result of starting a register at `b` and
performing exactly 8 iterations of the conditional shift-and-XOR step in
8-bit wrapping arithmetic. -/
theorem crc_table_entry (poly b : Nat) (hb : b < 256) :
    (Check8Crc.generate_table poly)[b]? = some (crcRegIter poly 8 b) := by
  simp [Check8Crc.generate_table, List.getElem?_map, List.getElem?_range hb,
    crcStep_iterate_eq]

/-- Witness for C1 at `poly = 7`, `b = 5`. -/
theorem crc_table_entry_witness :
    5 < 256 ∧ (Check8Crc.generate_table 7)[5]? = some (crcRegIter 7 8 5) :=
  ⟨by decide, crc_table_entry 7 5 (by decide)⟩

/-- Claim C2: for every CRC state and byte `val`, `add val` sets the
accumulator to `table[accum XOR val]`, returns that new accumulator
value, and leaves the table unchanged. -/
theorem crc_add_updates_accum (s : Check8Crc) (val : Nat) :
    (Check8Crc.add s val).1.accum = s.table.getD (s.accum ^^^ val) 0 ∧
    (Check8Crc.add s val).2 = (Check8Crc.add s val).1.accum ∧
    (Check8Crc.add s val).1.table = s.table :=
  ⟨rfl, rfl, rfl⟩

/-- Claim C3: a CRC engine built with polynomial 0x07, register
initialized to 0, fed the bytes [1, 2, 3] through
`calculate_from_byte_array`, returns 72 (0x48). -/
theorem crc_golden_bytes_123 :
    (Check8.calculate_from_byte_array Check8Crc.ops
      (Check8Crc.init (Check8Crc.new 7) 0).1 [1, 2, 3]).2 = 72 := by
  decide

/-- Claim C4: for every variant, `calculate_from_byte_array` folds `add`
left to right without resetting the accumulator, so running it on `A`
and then on `B` yields the same final state and return value as running
it once on `A ++ B`. -/
theorem calc_byte_array_append (sS : Check8Sum) (sX : Check8Xor)
    (sC : Check8Crc) (A B : List Nat) :
    Check8.calculate_from_byte_array Check8Sum.ops
        (Check8.calculate_from_byte_array Check8Sum.ops sS A).1 B
      = Check8.calculate_from_byte_array Check8Sum.ops sS (A ++ B) ∧
    Check8Xor.calculate_from_byte_array
        (Check8Xor.calculate_from_byte_array sX A).1 B
      = Check8Xor.calculate_from_byte_array sX (A ++ B) ∧
    Check8.calculate_from_byte_array Check8Crc.ops
        (Check8.calculate_from_byte_array Check8Crc.ops sC A).1 B
      = Check8.calculate_from_byte_array Check8Crc.ops sC (A ++ B) := by
  refine ⟨?_, ?_, ?_⟩ <;>
    simp [Check8.calculate_from_byte_array,
      Check8Xor.calculate_from_byte_array, List.foldl_append]

/-- Claim C5: for every Sum state and byte `val`, `add val` sets the
accumulator to `(accum + val) mod 256` with unsigned wraparound and
returns the new value; in particular after `init 255`, `add 1`
returns 0. -/
theorem sum_add_wrapping (s : Check8Sum) (val : Nat) :
    (Check8Sum.add s val).1.accum = (s.accum + val) % 256 ∧
    (Check8Sum.add s val).2 = (s.accum + val) % 256 ∧
    (Check8Sum.add (Check8Sum.init s 255).1 1).2 = 0 := by
  refine ⟨rfl, rfl, ?_⟩
  simp [Check8Sum.add, Check8Sum.init]

/-- Claim C6: for every byte `b` below 256, after `init 0` a single
`add b` returns `b` for both the Sum and Xor variants, and for the Xor
variant adding `b` a second time returns the accumulator to 0. -/
theorem init_zero_add_returns_byte (sS : Check8Sum) (sX : Check8Xor)
    (b : Nat) (hb : b < 256) :
    (Check8Sum.add (Check8Sum.init sS 0).1 b).2 = b ∧
    (Check8Xor.add (Check8Xor.init sX 0).1 b).2 = b ∧
    (Check8Xor.add (Check8Xor.add (Check8Xor.init sX 0).1 b).1 b).2 = 0 := by
  refine ⟨?_, ?_, ?_⟩ <;>
    simp [Check8Sum.add, Check8Sum.init, Check8Xor.add, Check8Xor.init,
      Nat.mod_eq_of_lt hb]

/-- Witness for C6 at `b = 42` from freshly constructed states. -/
theorem init_zero_add_returns_byte_witness :
    42 < 256 ∧
    ((Check8Sum.add (Check8Sum.init (Check8Sum.new 0) 0).1 42).2 = 42 ∧
     (Check8Xor.add (Check8Xor.init Check8Xor.new 0).1 42).2 = 42 ∧
     (Check8Xor.add (Check8Xor.add (Check8Xor.init Check8Xor.new 0).1 42).1
        42).2 = 0) :=
  ⟨by decide, init_zero_add_returns_byte (Check8Sum.new 0) Check8Xor.new 42
    (by decide)⟩

/-- Claim C7: for every variant, every state, and every string,
`calculate_from_string` returns the same value and final state as
`calculate_from_byte_array` applied to the string's UTF-8 byte
encoding. -/
theorem calc_string_eq_byte_array (sS : Check8Sum) (sX : Check8Xor)
    (sC : Check8Crc) (text : String) :
    Check8.calculate_from_string Check8Sum.ops sS text
      = Check8.calculate_from_byte_array Check8Sum.ops sS (strBytes text) ∧
    Check8Xor.calculate_from_string sX text
      = Check8Xor.calculate_from_byte_array sX (strBytes text) ∧
    Check8.calculate_from_string Check8Crc.ops sC text
      = Check8.calculate_from_byte_array Check8Crc.ops sC (strBytes text) :=
  ⟨rfl, rfl, rfl⟩

/-- Claim C8: construction sets the initial accumulator: `Check8Xor::new`
and `Check8Crc::new` (for every polynomial) start at 0, while
`Check8Sum::new initial` starts at the caller-supplied seed. -/
theorem new_initial_state (poly initial : Nat) :
    Check8Xor.new.accum = 0 ∧
    (Check8Crc.new poly).accum = 0 ∧
    (Check8Sum.new initial).accum = initial :=
  ⟨rfl, rfl, rfl⟩

/-- Claim C9: all operations are total over 8-bit inputs: the generated
table has exactly 256 entries, the CRC `add` index `accum XOR val` is
always within its bounds, every table entry is again an 8-bit value, and
the Sum and Xor updates stay within 8 bits — so no operation can index
out of bounds or leave the 8-bit domain. -/
theorem check8_ops_total (poly accum val : Nat)
    (hp : poly < 256) (ha : accum < 256) (hv : val < 256) :
    (Check8Crc.generate_table poly).length = 256 ∧
    accum ^^^ val < (Check8Crc.generate_table poly).length ∧
    (∀ e ∈ Check8Crc.generate_table poly, e < 256) ∧
    (accum + val) % 256 < 256 ∧
    accum ^^^ val < 256 := by
  have hlen : (Check8Crc.generate_table poly).length = 256 := by
    simp [Check8Crc.generate_table]
  have hxor : accum ^^^ val < 256 := xor_lt_256 ha hv
  exact ⟨hlen, by rw [hlen]; exact hxor, generate_table_mem_lt hp,
    Nat.mod_lt _ (by norm_num), hxor⟩

/-- Witness for C9 at `poly = 7`, `accum = 3`, `val = 5`. -/
theorem check8_ops_total_witness :
    (7 < 256 ∧ 3 < 256 ∧ 5 < 256) ∧
    ((Check8Crc.generate_table 7).length = 256 ∧
     3 ^^^ 5 < (Check8Crc.generate_table 7).length ∧
     (∀ e ∈ Check8Crc.generate_table 7, e < 256) ∧
     (3 + 5) % 256 < 256 ∧
     3 ^^^ 5 < 256) :=
  ⟨⟨by decide, by decide, by decide⟩,
    check8_ops_total 7 3 5 (by decide) (by decide) (by decide)⟩

/-- Claim C10: `Check8Xor`'s overriding `calculate_from_byte_array` and
`calculate_from_string` are extensionally equal to the trait's default
implementations: same return value and same final state, for every
starting state and every input. -/
theorem xor_override_matches_default (s : Check8Xor) (array : List Nat)
    (string : String) :
    Check8Xor.calculate_from_byte_array s array
      = Check8.calculate_from_byte_array Check8Xor.ops s array ∧
    Check8Xor.calculate_from_string s string
      = Check8.calculate_from_string Check8Xor.ops s string :=
  ⟨rfl, rfl⟩
